import Mathlib

/-!
Verification of the Fiat-Shamir hint generation pipeline of
`src/fibonacci/fiat_shamir.rs` (bitcoin-circle-stark).

The file shallowly embeds the orchestrating function `generate_fs_hints`
together with the data model (`FiatShamirHints`, `FriInput`, `FSOutput`)
and the `Pushable` serialization of the hint bundle.  External
collaborators (the hash transcript, the commitment-scheme verifier, the
AIR, the proof-of-work checker, the query sampler and the repository's
`sampled_values_to_mask`) are not part of the given source; they are
modelled from the specification's contracts (§4.2, §6), each such
definition carries a `Modelled from the spec:` doc comment.

Machine integers (`u32`) are modelled as `Nat`; the only subtraction in
the embedded code (`log_size - LOG_BLOWUP_FACTOR`, `fold_to_line`,
degree-bound folding) is truncated `Nat` subtraction, with the folding
subtraction guarded exactly as in the source (`fold` fails when the
bound is smaller than the step).  Rust panics (the `assert_eq!` block,
the `.unwrap()` call, the `last_layer_poly.to_vec()[0]` index) are
modelled as an explicit `RunResult.panicked` outcome.
-/

namespace FiatShamir

/-- Values of `SecureField` (QM31).  The orchestrator only compares them for
equality and passes them around, so they are modelled as opaque values. -/
abbrev QM31 := Nat

/-- A `CirclePoint<SecureField>`, opaque to the orchestrator. -/
abbrev Point := Nat

/-- A `BWSSha256Hash` digest, opaque to the orchestrator. -/
abbrev Hash := Nat

/-- One absorbed transcript event.  Modelled from the spec: the channel
"absorbs bytes/digests" irreversibly; we record the absorption history. -/
inductive Entry where
  | digestE : Hash → Entry
  | feltE : QM31 → Entry
  | nonceE : Nat → Entry
  | drawE : Entry
  deriving DecidableEq, Repr

/-- Modelled from the spec: the stateful hash-based transcript
(`BWSSha256Channel`).  Its state is the history of absorbed data; the
"digest" of the channel is abstracted as that whole history (a perfect
hash), since the orchestrator never inspects it. -/
structure Channel where
  hist : List Entry
  deriving DecidableEq, Repr

/-- Modelled from the spec: `mix_digest(d)` absorbs a digest; "updates
digest irreversibly". -/
def Channel.mix_digest (ch : Channel) (d : Hash) : Channel :=
  ⟨ch.hist ++ [Entry.digestE d]⟩

/-- Modelled from the spec: `mix(values)` absorbs arbitrary field values. -/
def Channel.mix_felts (ch : Channel) (vs : List QM31) : Channel :=
  ⟨ch.hist ++ vs.map Entry.feltE⟩

/-- Modelled from the spec: the proof-of-work checker absorbs the nonce. -/
def Channel.mix_nonce (ch : Channel) (n : Nat) : Channel :=
  ⟨ch.hist ++ [Entry.nonceE n]⟩

/-- Modelled from the spec: every challenge draw advances the channel
state (the draw is "a deterministic function of the current digest" and
subsequent draws differ, so drawing is itself a state update). -/
def Channel.advance (ch : Channel) : Channel :=
  ⟨ch.hist ++ [Entry.drawE]⟩

/-- Items appended to a Bitcoin script `Builder`.  The hint payloads are
opaque (spec §3: "treated as an opaque payload by the orchestrator"). -/
inductive It where
  | hashIt : Hash → It
  | feltIt : QM31 → It
  | payloadIt : Nat → It
  | powIt : List Entry → Nat → Nat → It
  deriving DecidableEq, Repr

/-- The script `Builder`: the sequence of pushed items. -/
abbrev Builder := List It

/-- The `DrawHints` payload: opaque replay witness for a challenge draw (spec §3),
modelled as the item sequence it pushes. -/
abbrev DrawHints := List It

/-- The `OODSHint` payload: opaque replay witness for the sampled point (spec §3). -/
abbrev OODSHint := List It

/-- The `CompositionHint` (crate::air): the two constraint-quotient
contributions evaluated at the sampled point (spec §3). -/
structure CompositionHint where
  constraint_eval_quotients_by_mask : List QM31
  deriving DecidableEq, Repr

/-- The `PoWHint` built by `PoWHint::new(digest, nonce, n_bits)` (crate::pow): replay witness
tying a nonce to a digest and difficulty (spec §3). -/
structure PoWHint where
  digest : List Entry
  nonce : Nat
  n_bits : Nat
  deriving DecidableEq, Repr

/-- Modelled from the spec: fixed protocol constants "(blowup factor,
proof-of-work bit difficulty, query count, last-layer degree bound)
supplied by configuration external to this core" (§6).  The source
reads them as `LOG_BLOWUP_FACTOR`, `PROOF_OF_WORK_BITS`, `N_QUERIES`,
`LOG_LAST_LAYER_DEGREE_BOUND` from `stwo_prover::core::prover`. -/
structure Consts where
  log_blowup_factor : Nat
  log_last_layer_degree_bound : Nat
  n_queries : Nat
  proof_of_work_bits : Nat
  deriving DecidableEq, Repr

/-- Constant `FOLD_STEP` (stwo fri): the fixed per-layer fold step. -/
def FOLD_STEP : Nat := 1

/-- Modelled from the spec: the circle-to-line fold (§4.1 step 9 and
glossary "FRI"): folding a circle polynomial onto the line consumes one
fold step, halving its degree bound (`CIRCLE_TO_LINE_FOLD_STEP` in
stwo's fri module). -/
def CIRCLE_TO_LINE_FOLD_STEP : Nat := 1

/-- Function `LinePolyDegreeBound::fold(n)` (stwo fri): modelled from the spec —
"apply the fixed per-layer fold step to the running degree bound — if
folding is not possible (bound too small to fold further), fail". -/
def lineFold (bound n : Nat) : Option Nat :=
  if bound < n then none else some (bound - n)

/-- Modelled from the spec: the external collaborators of §4.2 that draw
challenges, sample queries, check proof-of-work, and combine the four
composition sub-column values into the composition value.  Each draw is
a deterministic function of the current channel state. -/
structure Ext where
  draw_felt : Channel → QM31
  draw_felt_hint : Channel → DrawHints
  draw_point : Channel → Point
  draw_point_hint : Channel → OODSHint
  pow_ok : List Entry → Nat → Nat → Bool
  gen_queries : Channel → Nat → Nat → List Nat
  gen_queries_hint : Channel → Nat → Nat → DrawHints
  combine : QM31 → QM31 → QM31 → QM31 → QM31

/-- Modelled from the spec: the AIR external collaborator (§4.2): column
layout, composition degree bound, mask points, and the pure constraint
evaluators of the one Fibonacci component. -/
structure Air where
  column_log_sizes : List Nat
  composition_log_degree_bound : Nat
  mask_points : Point → List (List (List Point))
  eval_composition_polynomial_at_point :
    Point → List (List (List QM31)) → QM31 → QM31
  boundary_constraint_eval_quotient_by_mask : Point → List QM31 → QM31
  step_constraint_eval_quotient_by_mask : Point → List QM31 → QM31

/-- A `FriLayerProof`: the per-layer data read by the orchestrator (its
commitment; the decommitment itself is opaque here). -/
structure FriLayerProof where
  commitment : Hash
  deriving DecidableEq, Repr

/-- The `FriProof`: inner layer proofs and the last-layer polynomial
(coefficient list). -/
structure FriProof where
  inner_layers : List FriLayerProof
  last_layer_poly : List QM31
  deriving DecidableEq, Repr

/-- The `ProofOfWorkProof`: the nonce. -/
structure ProofOfWorkProof where
  nonce : Nat
  deriving DecidableEq, Repr

/-- The `CommitmentSchemeProof`: the parts read by `generate_fs_hints`. -/
structure CommitmentSchemeProof where
  sampled_values : List (List (List QM31))
  fri_proof : FriProof
  proof_of_work : ProofOfWorkProof
  deriving DecidableEq, Repr

/-- The `StarkProof`: the two commitments (trace, composition) and the
commitment-scheme proof. -/
structure StarkProof where
  commitments : Hash × Hash
  commitment_scheme_proof : CommitmentSchemeProof
  deriving DecidableEq, Repr

/-- Modelled from the spec: the commitment-scheme verifier "tracks
per-tree column sizes, registers Merkle-style commitments against the
transcript" (§2).  `commit` records the column layout and absorbs the
commitment digest. -/
structure CommitmentSchemeVerifier where
  trees : List (List Nat)
  deriving DecidableEq, Repr

def CommitmentSchemeVerifier.commit (cs : CommitmentSchemeVerifier)
    (commitment : Hash) (log_sizes : List Nat) (ch : Channel) :
    CommitmentSchemeVerifier × Channel :=
  (⟨cs.trees ++ [log_sizes]⟩, ch.mix_digest commitment)

def CommitmentSchemeVerifier.column_log_sizes
    (cs : CommitmentSchemeVerifier) : List (List Nat) :=
  cs.trees

/-- Errors `FriVerificationError` (stwo fri), restricted to the variants this
file can produce. -/
inductive FriVerificationError where
  | invalidNumFriLayers
  | lastLayerDegreeInvalid
  deriving DecidableEq, Repr

/-- Errors `VerificationError` (stwo prover), restricted to the variants this
file mentions. -/
inductive VerificationError where
  | invalidStructure : String → VerificationError
  | oodsNotMatching
  | fri : FriVerificationError → VerificationError
  | proofOfWork
  deriving DecidableEq, Repr


end FiatShamir

namespace FiatShamir

/-- The `FiatShamirHints` bundle (source lines 29-65).  The fixed-size
arrays `[BWSSha256Hash; 2]`, `[SecureField; 3]`, `[SecureField; 4]` are
modelled as tuples. -/
structure FiatShamirHints where
  commitments : Hash × Hash
  random_coeff_hint : DrawHints
  oods_hint : OODSHint
  trace_oods_values : QM31 × QM31 × QM31
  composition_oods_values : QM31 × QM31 × QM31 × QM31
  composition_hint : CompositionHint
  random_coeff_hint2 : DrawHints
  circle_poly_alpha_hint : DrawHints
  fri_commitment_and_folding_hints : List (Hash × DrawHints)
  last_layer : QM31
  pow_hint : PoWHint
  queries_hints : DrawHints
  deriving DecidableEq, Repr

/-- Modelled from the spec: the leaf `Pushable` impls (crate::treepp) of
the opaque payloads push their item encoding onto the builder. -/
def pushHash (h : Hash) (b : Builder) : Builder := b ++ [It.hashIt h]

/-- Modelled from the spec: a `SecureField` pushes its encoding. -/
def pushFelt (v : QM31) (b : Builder) : Builder := b ++ [It.feltIt v]

/-- Modelled from the spec: an opaque hint payload is pushed verbatim. -/
def pushHints (d : DrawHints) (b : Builder) : Builder := b ++ d

/-- Modelled from the spec: the composition hint pushes its two
constraint-quotient contributions. -/
def pushCompositionHint (c : CompositionHint) (b : Builder) : Builder :=
  b ++ c.constraint_eval_quotients_by_mask.map It.feltIt

/-- Modelled from the spec: the proof-of-work hint pushes its (digest,
nonce, difficulty) content. -/
def pushPoWHint (p : PoWHint) (b : Builder) : Builder :=
  b ++ [It.powIt p.digest p.nonce p.n_bits]

/-- Embedding of `impl Pushable for &FiatShamirHints` (source lines
67-91): each field pushed in source order, the two loops over the
fixed-size value arrays unrolled in index order, the FRI loop a fold. -/
def FiatShamirHints.bitcoin_script_push (self : FiatShamirHints)
    (builder : Builder) : Builder :=
  let builder := pushHash self.commitments.1 builder
  let builder := pushHints self.random_coeff_hint builder
  let builder := pushHash self.commitments.2 builder
  let builder := pushHints self.oods_hint builder
  let builder := pushFelt self.trace_oods_values.1 builder
  let builder := pushFelt self.trace_oods_values.2.1 builder
  let builder := pushFelt self.trace_oods_values.2.2 builder
  let builder := pushFelt self.composition_oods_values.1 builder
  let builder := pushFelt self.composition_oods_values.2.1 builder
  let builder := pushFelt self.composition_oods_values.2.2.1 builder
  let builder := pushFelt self.composition_oods_values.2.2.2 builder
  let builder := pushCompositionHint self.composition_hint builder
  let builder := pushHints self.random_coeff_hint2 builder
  let builder := pushHints self.circle_poly_alpha_hint builder
  let builder := self.fri_commitment_and_folding_hints.foldl
    (fun b ch => pushHints ch.2 (pushHash ch.1 b)) builder
  let builder := pushFelt self.last_layer builder
  let builder := pushPoWHint self.pow_hint builder
  pushHints self.queries_hints builder

/-- The `FriInput` bundle (source lines 100-133).  `LineDomain` values
are modelled by their log size, `Queries` by the index list. -/
structure FriInput where
  fri_log_blowup_factor : Nat
  max_column_log_degree_bound : Nat
  column_log_sizes : List Nat
  commitment_scheme_column_log_sizes : List (List Nat)
  sampled_points : List (List (List Point))
  sample_values : List (List (List QM31))
  random_coeff : QM31
  circle_poly_alpha : QM31
  folding_alphas : List QM31
  last_layer_domain : Nat
  queries : List Nat
  deriving DecidableEq, Repr

/-- The `FSOutput` pair (source lines 136-142). -/
structure FSOutput where
  fiat_shamir_hints : FiatShamirHints
  fri_input : FriInput
  deriving DecidableEq, Repr

/-- Outcome of one `generate_fs_hints` run: a Rust panic, a typed error,
or the success value. -/
inductive RunResult where
  | panicked
  | err : VerificationError → RunResult
  | ok : FSOutput → RunResult
  deriving DecidableEq, Repr

/-- Modelled from the spec: `sampled_values_to_mask` (crate::fibonacci,
not under src/): "Extract trace mask values and the single composition
value from the proof's sampled-value structure; fail ... if the shape
does not match the expected (1 trace row, 4 composition rows) layout",
the trace row carrying the 3-point mask and the composition value being
combined from the four sub-column values. -/
def sampled_values_to_mask (ext : Ext)
    (sampled_values : List (List (List QM31))) :
    Option (List (List (List QM31)) × QM31) :=
  match sampled_values with
  | [[[a, b, c]], [[d], [e], [f], [g]]] =>
      some ([[[a, b, c]]], ext.combine d e f g)
  | _ => none

/-- Embedding of the defensive `assert_eq!` block (source lines
176-183): the three trace-tree asserts compare the flattened sampled
points with the AIR's own mask layout and panic on an out-of-bounds
index or a mismatch; the four composition-tree asserts compare
`vec![vec![oods_point]; 4]` against `oods_point` and always hold by
construction. -/
def maskAssertsOk (msk : List (List (List Point))) : Bool :=
  (List.range 3).all (fun k =>
    match (msk.flatten.get? 0).bind (fun col => col.get? k),
          ((msk.get? 0).bind (fun t => t.get? 0)).bind (fun col => col.get? k) with
    | some a, some b => a == b
    | _, _ => false)

/-- Channel after registering the trace commitment (source line 152). -/
def chAfterTraceCommit (proof : StarkProof) (ch : Channel) : Channel :=
  ch.mix_digest proof.commitments.1

/-- The first drawn random coefficient (source line 153): drawn right
after the trace commitment is absorbed. -/
def firstRandomCoeff (ext : Ext) (proof : StarkProof) (ch : Channel) : QM31 :=
  ext.draw_felt (chAfterTraceCommit proof ch)

/-- Channel after registering the composition commitment (source lines
156-160). -/
def chAfterCompCommit (proof : StarkProof) (ch : Channel) : Channel :=
  ((chAfterTraceCommit proof ch).advance).mix_digest proof.commitments.2

/-- The OODS point (source line 163): drawn right after the composition
commitment is absorbed. -/
def oodsPoint (ext : Ext) (proof : StarkProof) (ch : Channel) : Point :=
  ext.draw_point (chAfterCompCommit proof ch)

/-- The per-tree recorded column layouts after the two `commit` calls
(source lines 151-160): the AIR's column sizes, then four composition
sub-columns of the composition degree bound. -/
def commitmentTrees (air : Air) : List (List Nat) :=
  [air.column_log_sizes, List.replicate 4 air.composition_log_degree_bound]

/-- The two-tree sampled-point structure (source lines 171-173): tree 0
is the flattened trace mask, tree 1 is four copies of the OODS point. -/
def sampledPointsOf (air : Air) (oods_point : Point) :
    List (List (List Point)) :=
  [(air.mask_points oods_point).flatten, List.replicate 4 [oods_point]]

/-- The per-column degree bounds before sorting (source lines 225-231):
for each committed column, `log_size - LOG_BLOWUP_FACTOR` repeated once
per sampled point of that column, flattened across trees. -/
def rawBounds (consts : Consts) (air : Air) (oods_point : Point) : List Nat :=
  (((commitmentTrees air).zip (sampledPointsOf air oods_point)).map
    (fun tp => (tp.1.zip tp.2).map
      (fun cp => List.replicate cp.2.length (cp.1 - consts.log_blowup_factor)))).flatten.flatten

/-- The degree bounds sorted descending and deduplicated (source lines
232-236): itertools `sorted()` (stable ascending sort), `rev()`,
`dedup()` (removes consecutive duplicates). -/
def boundsOf (consts : Consts) (air : Air) (oods_point : Point) : List Nat :=
  List.destutter (· ≠ ·)
    ((List.insertionSort (· ≤ ·) (rawBounds consts air oods_point)).reverse)

end FiatShamir

namespace FiatShamir

/-- Channel after the OODS point draw (source line 163). -/
def chAfterOodsDraw (proof : StarkProof) (ch : Channel) : Channel :=
  (chAfterCompCommit proof ch).advance

/-- Embedding of the FRI inner-layer loop (source lines 257-283): for
each layer proof in index order, absorb its commitment, draw the folding
challenge and hint, append the (commitment, hint) pair and the alpha,
then fold the running degree bound — `none` in the last component means
the in-loop fold failed (source line 281) — and double the domain. -/
def friLayerLoop (ext : Ext) (layers : List FriLayerProof)
    (bound domain : Nat) (ch : Channel)
    (hints : List (Hash × DrawHints)) (alphas : List QM31) :
    Channel × List (Hash × DrawHints) × List QM31 × Option (Nat × Nat) :=
  match layers with
  | [] => (ch, hints, alphas, some (bound, domain))
  | l :: rest =>
    let ch1 := ch.mix_digest l.commitment
    let folding_alpha := ext.draw_felt ch1
    let folding_alpha_hint := ext.draw_felt_hint ch1
    let ch2 := ch1.advance
    let hints2 := hints ++ [(l.commitment, folding_alpha_hint)]
    let alphas2 := alphas ++ [folding_alpha]
    match lineFold bound FOLD_STEP with
    | none => (ch2, hints2, alphas2, none)
    | some bound2 => friLayerLoop ext rest bound2 (domain + 1) ch2 hints2 alphas2

/-- Channel at the start of the FRI loop: after the OODS draw, the
mixing of all sampled values (source lines 216-222), the second
coefficient draw (223) and the circle-poly alpha draw (246). -/
def chBeforeFriLoop (proof : StarkProof) (ch : Channel) : Channel :=
  (((chAfterOodsDraw proof ch).mix_felts
    proof.commitment_scheme_proof.sampled_values.flatten.flatten).advance).advance

/-- Value `max_column_bound` (source line 242): head of the sorted,
deduplicated bound list. -/
def maxColumnBound (ext : Ext) (consts : Consts) (air : Air)
    (proof : StarkProof) (ch : Channel) : Nat :=
  (boundsOf consts air (oodsPoint ext proof ch)).headD 0

/-- The FRI loop run on the proof's inner layers, starting from the
line-folded max bound (source line 249) and its domain (source lines
250-252). -/
def friLoopResult (ext : Ext) (consts : Consts) (air : Air)
    (proof : StarkProof) (ch : Channel) :
    Channel × List (Hash × DrawHints) × List QM31 × Option (Nat × Nat) :=
  friLayerLoop ext proof.commitment_scheme_proof.fri_proof.inner_layers
    (maxColumnBound ext consts air proof ch - CIRCLE_TO_LINE_FOLD_STEP)
    (maxColumnBound ext consts air proof ch - CIRCLE_TO_LINE_FOLD_STEP
      + consts.log_blowup_factor)
    (chBeforeFriLoop proof ch) [] []

/-- Triple indexing into the sampled-value table (source lines 325-334);
the shape is guaranteed by the structure check that already succeeded. -/
def g3 (sv : List (List (List QM31))) (i j k : Nat) : QM31 :=
  ((sv.getD i []).getD j []).getD k 0

/-- Continuation of `generate_fs_hints` after the OODS consistency check
(source lines 201-362).  Split out so that properties of the individual
checks can be stated about a single definition; every value it needs is
recomputed deterministically from the five inputs (plus the extracted
trace mask values). -/
def fsTail (ext : Ext) (consts : Consts) (air : Air)
    (proof : StarkProof) (channel : Channel)
    (trace_oods_values : List (List (List QM31))) : RunResult × Channel :=
  let random_coeff_hint := ext.draw_felt_hint (chAfterTraceCommit proof channel)
  let oods_point := oodsPoint ext proof channel
  let oods_hint := ext.draw_point_hint (chAfterCompCommit proof channel)
  let ch4 := chAfterOodsDraw proof channel
  let sampled_points := sampledPointsOf air oods_point
  -- Composition hint (201-212).
  let composition_hint : CompositionHint := ⟨[
      air.boundary_constraint_eval_quotient_by_mask oods_point
        (((trace_oods_values.headD []).headD []).take 1),
      air.step_constraint_eval_quotient_by_mask oods_point
        ((trace_oods_values.headD []).headD [])]⟩
  let sample_values := proof.commitment_scheme_proof.sampled_values
  -- Mix all sampled values; draw the second coefficient (214-223).
  let ch5 := ch4.mix_felts sample_values.flatten.flatten
  let random_coeff2 := ext.draw_felt ch5
  let random_coeff_hint2 := ext.draw_felt_hint ch5
  let ch6 := ch5.advance
  -- Bounds and max bound (225-243).
  let max_column_bound := maxColumnBound ext consts air proof channel
  -- Circle poly alpha (246).
  let circle_poly_alpha := ext.draw_felt ch6
  let circle_poly_alpha_hint := ext.draw_felt_hint ch6
  -- FRI inner-layer loop (248-283).
  match friLoopResult ext consts air proof channel with
  | (chL, _, _, none) =>
    (RunResult.err (VerificationError.fri FriVerificationError.invalidNumFriLayers), chL)
  | (chL, fri_pairs, folding_alphas, some bd) =>
    -- Post-loop degree-bound check (285-289).
    if bd.1 ≠ consts.log_last_layer_degree_bound then
      (RunResult.err (VerificationError.fri FriVerificationError.invalidNumFriLayers), chL)
    else
    let last_layer_domain := bd.2
    let last_layer_poly := proof.commitment_scheme_proof.fri_proof.last_layer_poly
    -- Last-layer degree check (294-298).
    if last_layer_poly.length > 2 ^ consts.log_last_layer_degree_bound then
      (RunResult.err (VerificationError.fri FriVerificationError.lastLayerDegreeInvalid), chL)
    else
    -- Mix last layer (300); build PoW hint (302-306); verify PoW (309-310).
    let ch8 := chL.mix_felts last_layer_poly
    let nonce := proof.commitment_scheme_proof.proof_of_work.nonce
    let pow_hint : PoWHint := ⟨ch8.hist, nonce, consts.proof_of_work_bits⟩
    let ch9 := ch8.mix_nonce nonce
    if ext.pow_ok ch8.hist nonce consts.proof_of_work_bits = false then
      (RunResult.err VerificationError.proofOfWork, ch9)
    else
    -- Final column log sizes (312-316); query sampling (318-319).
    let column_log_sizes := (List.destutter (· ≠ ·)
      (boundsOf consts air oods_point)).map (· + consts.log_blowup_factor)
    let queries := ext.gen_queries ch9 (column_log_sizes.headD 0) consts.n_queries
    let queries_hints := ext.gen_queries_hint ch9 (column_log_sizes.headD 0) consts.n_queries
    let ch10 := ch9.advance
    -- Bundle assembly (321-362); `last_layer_poly.to_vec()[0]` (340) is
    -- an unguarded index: it panics when the last layer is empty.
    match last_layer_poly with
    | [] => (RunResult.panicked, ch10)
    | ll0 :: _ =>
      (RunResult.ok {
        fiat_shamir_hints := {
          commitments := (proof.commitments.1, proof.commitments.2)
          random_coeff_hint := random_coeff_hint
          oods_hint := oods_hint
          trace_oods_values :=
            (g3 sample_values 0 0 0, g3 sample_values 0 0 1, g3 sample_values 0 0 2)
          composition_oods_values :=
            (g3 sample_values 1 0 0, g3 sample_values 1 1 0,
             g3 sample_values 1 2 0, g3 sample_values 1 3 0)
          composition_hint := composition_hint
          random_coeff_hint2 := random_coeff_hint2
          circle_poly_alpha_hint := circle_poly_alpha_hint
          fri_commitment_and_folding_hints := fri_pairs
          last_layer := ll0
          pow_hint := pow_hint
          queries_hints := queries_hints }
        fri_input := {
          fri_log_blowup_factor := consts.log_blowup_factor
          max_column_log_degree_bound := max_column_bound
          column_log_sizes := column_log_sizes
          commitment_scheme_column_log_sizes := commitmentTrees air
          sampled_points := sampled_points
          sample_values := sample_values
          random_coeff := random_coeff2
          circle_poly_alpha := circle_poly_alpha
          folding_alphas := folding_alphas
          last_layer_domain := last_layer_domain
          queries := queries } }, ch10)


/-- Embedding of `generate_fs_hints` (source lines 145-363).  Returns
the run outcome together with the final channel state (the Rust
function mutates the channel through a `&mut` reference, so the channel
state at the point of return is observable to the caller). -/
def generate_fs_hints (ext : Ext) (consts : Consts) (air : Air)
    (proof : StarkProof) (channel : Channel) : RunResult × Channel :=
  -- Read trace commitment; draw the first random coefficient (150-153).
  let random_coeff := firstRandomCoeff ext proof channel
  -- Read composition polynomial commitment (156-160); draw OODS point (162-163).
  let oods_point := oodsPoint ext proof channel
  let ch4 := chAfterOodsDraw proof channel
  -- Mask points and the two-tree point structure (166-173).
  let trace_sample_points := air.mask_points oods_point
  -- Defensive reorganization asserts (176-183).
  if maskAssertsOk trace_sample_points = false then (RunResult.panicked, ch4) else
  -- Extraction (186-193): `map_err(.. InvalidStructure ..).unwrap()` —
  -- the failure case panics instead of returning the typed error.
  match sampled_values_to_mask ext proof.commitment_scheme_proof.sampled_values with
  | none => (RunResult.panicked, ch4)
  | some (trace_oods_values, composition_oods_value) =>
    -- OODS check (195-199), against the FIRST random coefficient.
    if composition_oods_value ≠ air.eval_composition_polynomial_at_point
        oods_point trace_oods_values random_coeff then
      (RunResult.err VerificationError.oodsNotMatching, ch4)
    else
      -- Everything after the OODS check (201-362).
      fsTail ext consts air proof channel trace_oods_values


/-- Modelled from the spec: the §6 hint-bundle wire order, written down
independently of the `Pushable` implementation: `commitment[0]`,
`random_coeff_hint`, `commitment[1]`, `oods_hint`, the three trace mask
values, the four composition values, `composition_hint`,
`random_coeff_hint2`, `circle_poly_alpha_hint`, the per-layer
(commitment, fold hint) pairs outer to inner, the last-layer
coefficient, the proof-of-work hint, and the queries hint. -/
def specWireOrder (h : FiatShamirHints) : List It :=
  [It.hashIt h.commitments.1]
  ++ h.random_coeff_hint
  ++ [It.hashIt h.commitments.2]
  ++ h.oods_hint
  ++ [It.feltIt h.trace_oods_values.1, It.feltIt h.trace_oods_values.2.1,
      It.feltIt h.trace_oods_values.2.2]
  ++ [It.feltIt h.composition_oods_values.1, It.feltIt h.composition_oods_values.2.1,
      It.feltIt h.composition_oods_values.2.2.1, It.feltIt h.composition_oods_values.2.2.2]
  ++ h.composition_hint.constraint_eval_quotients_by_mask.map It.feltIt
  ++ h.random_coeff_hint2
  ++ h.circle_poly_alpha_hint
  ++ (h.fri_commitment_and_folding_hints.map (fun ch => It.hashIt ch.1 :: ch.2)).flatten
  ++ [It.feltIt h.last_layer]
  ++ [It.powIt h.pow_hint.digest h.pow_hint.nonce h.pow_hint.n_bits]
  ++ h.queries_hints

/-! Concrete instances used to witness and refute claims: a trivial
instantiation of the modelled external collaborators, a small AIR, the
stwo protocol constants, and a family of small proofs. -/

/-- A concrete instantiation of the modelled external collaborators. -/
def ext0 : Ext where
  draw_felt := fun _ => 0
  draw_felt_hint := fun _ => []
  draw_point := fun _ => 0
  draw_point_hint := fun _ => []
  pow_ok := fun _ _ _ => true
  gen_queries := fun _ _ n => List.range n
  gen_queries_hint := fun _ _ _ => []
  combine := fun _ _ _ _ => 0

/-- A small concrete AIR whose recomputed composition value is `0`. -/
def air0 : Air where
  column_log_sizes := [3]
  composition_log_degree_bound := 3
  mask_points := fun p => [[[p, p, p]]]
  eval_composition_polynomial_at_point := fun _ _ _ => 0
  boundary_constraint_eval_quotient_by_mask := fun _ _ => 0
  step_constraint_eval_quotient_by_mask := fun _ _ => 0

/-- Like `air0` but recomputing `99`, so the OODS check fails against a
proof carrying composition value `0`. -/
def air1 : Air :=
  { air0 with eval_composition_polynomial_at_point := fun _ _ _ => 99 }

/-- The stwo protocol constants: blowup 1, last-layer bound 0,
3 queries, 12 proof-of-work bits. -/
def consts0 : Consts := ⟨1, 0, 3, 12⟩

/-- An empty initial channel. -/
def ch00 : Channel := ⟨[]⟩

/-- A proof accepted end to end under `ext0`/`air0`/`consts0`: one FRI
inner layer, a one-coefficient last layer. -/
def proof0 : StarkProof where
  commitments := (10, 20)
  commitment_scheme_proof := {
    sampled_values := [[[1, 2, 3]], [[4], [5], [6], [7]]]
    fri_proof := { inner_layers := [⟨30⟩], last_layer_poly := [9] }
    proof_of_work := ⟨77⟩ }

/-- Like `proof0` but with three FRI inner layers: the in-loop fold
fails on the third layer. -/
def proofLayers : StarkProof :=
  { proof0 with commitment_scheme_proof := { proof0.commitment_scheme_proof with
      fri_proof := { inner_layers := [⟨30⟩, ⟨31⟩, ⟨32⟩], last_layer_poly := [9] } } }

/-- Like `proof0` but with an empty last-layer polynomial. -/
def proofLL0 : StarkProof :=
  { proof0 with commitment_scheme_proof := { proof0.commitment_scheme_proof with
      fri_proof := { inner_layers := [⟨30⟩], last_layer_poly := [] } } }

/-- Like `proof0` but with a two-coefficient last layer, exceeding
`2 ^ log_last_layer_degree_bound = 1`. -/
def proofLL2 : StarkProof :=
  { proof0 with commitment_scheme_proof := { proof0.commitment_scheme_proof with
      fri_proof := { inner_layers := [⟨30⟩], last_layer_poly := [8, 9] } } }

/-- Like `proof0` but with an empty sampled-value table: the expected
(1 trace row, 4 composition rows) shape is violated. -/
def proofEmptySV : StarkProof :=
  { proof0 with commitment_scheme_proof := { proof0.commitment_scheme_proof with
      sampled_values := [] } }

/-- A placeholder output (never reached on the paths below). -/
def dummyOutput : FSOutput where
  fiat_shamir_hints := ⟨(0, 0), [], [], (0, 0, 0), (0, 0, 0, 0), ⟨[]⟩, [], [], [], 0,
    ⟨[], 0, 0⟩, []⟩
  fri_input := ⟨0, 0, [], [], [], [], 0, 0, [], 0, []⟩

/-- The success output of the accepted run on `proof0`. -/
def out0 : FSOutput :=
  match (generate_fs_hints ext0 consts0 air0 proof0 ch00).1 with
  | RunResult.ok o => o
  | _ => dummyOutput

end FiatShamir

namespace FiatShamir

/-- The FRI-pair loop of the serializer appends one commitment item and
then the fold-hint payload per layer, in list order. -/
theorem foldl_push_eq (l : List (Hash × DrawHints)) (b : Builder) :
    l.foldl (fun bb ch => bb ++ It.hashIt ch.1 :: ch.2) b
      = b ++ (l.map (fun ch => It.hashIt ch.1 :: ch.2)).flatten := by
  induction l generalizing b with
  | nil => simp
  | cons x xs ih => rw [List.foldl_cons, ih]; simp

/-- A weakly-decreasing list whose consecutive entries differ is
strictly decreasing. -/
theorem pairwise_gt_of_ge_ne :
    ∀ l : List Nat, l.Pairwise (· ≥ ·) → l.Chain' (· ≠ ·) → l.Pairwise (· > ·)
  | [], _, _ => List.Pairwise.nil
  | [x], _, _ => by simp
  | x :: y :: ys, hge, hne => by
    rw [List.pairwise_cons] at hge
    obtain ⟨hx, hge'⟩ := hge
    rw [List.chain'_cons] at hne
    obtain ⟨hxy, hne'⟩ := hne
    have ih := pairwise_gt_of_ge_ne (y :: ys) hge' hne'
    rw [List.pairwise_cons]
    refine ⟨?_, ih⟩
    intro z hz
    rcases List.mem_cons.mp hz with rfl | hz'
    · exact lt_of_le_of_ne (hx z hz) (Ne.symm hxy)
    · have hxy' : y < x := lt_of_le_of_ne (hx y (by simp)) (Ne.symm hxy)
      have hyz : z ≤ y := (List.pairwise_cons.mp hge').1 z hz'
      omega

/-- The sorted-descending deduplicated bound list is weakly decreasing. -/
theorem boundsOf_pairwise_ge (consts : Consts) (air : Air) (o : Point) :
    (boundsOf consts air o).Pairwise (· ≥ ·) := by
  unfold boundsOf
  have hrev : ((List.insertionSort (· ≤ ·) (rawBounds consts air o)).reverse).Pairwise
      (· ≥ ·) := by
    rw [List.pairwise_reverse]
    exact List.sorted_insertionSort (· ≤ ·) (rawBounds consts air o)
  exact List.Pairwise.sublist (List.destutter_sublist _ _) hrev

/-- The final `column_log_sizes` expression (dedup of the bound list,
blowup added back) is strictly decreasing. -/
theorem columnLogSizes_pairwise_gt (consts : Consts) (air : Air) (o : Point) :
    ((List.destutter (· ≠ ·) (boundsOf consts air o)).map
      (· + consts.log_blowup_factor)).Pairwise (· > ·) := by
  rw [List.pairwise_map]
  have h1 : (List.destutter (· ≠ ·) (boundsOf consts air o)).Pairwise (· ≥ ·) :=
    List.Pairwise.sublist (List.destutter_sublist _ _) (boundsOf_pairwise_ge consts air o)
  have h2 := pairwise_gt_of_ge_ne _ h1 (List.destutter_is_chain' _ _)
  exact h2.imp (fun h => Nat.add_lt_add_right h _)

/-- Characterization of the loop's final bound/domain: the fold
succeeds on every layer exactly when there are at most `bound` layers,
and then subtracts one per layer while doubling the domain. -/
theorem friLayerLoop_opt (ext : Ext) (layers : List FriLayerProof) :
    ∀ (bound domain : Nat) (ch : Channel) (hints : List (Hash × DrawHints))
      (alphas : List QM31),
      (friLayerLoop ext layers bound domain ch hints alphas).2.2.2
        = if layers.length ≤ bound
          then some (bound - layers.length, domain + layers.length)
          else none := by
  induction layers with
  | nil => intro bound domain ch hints alphas; simp [friLayerLoop]
  | cons l rest ih =>
    intro bound domain ch hints alphas
    by_cases hb : bound < FOLD_STEP
    · simp only [FOLD_STEP] at hb
      have h1 : ¬ (rest.length + 1 ≤ bound) := by omega
      simp [friLayerLoop, lineFold, FOLD_STEP, hb, h1]
    · have hfold : lineFold bound FOLD_STEP = some (bound - FOLD_STEP) := by
        simp [lineFold, hb]
      simp only [friLayerLoop, hfold]
      rw [ih]
      simp only [FOLD_STEP] at hb ⊢
      by_cases hc : rest.length ≤ bound - 1
      · have hc2 : (l :: rest).length ≤ bound := by
          simp only [List.length_cons]; omega
        rw [if_pos hc, if_pos hc2]
        simp only [List.length_cons, Option.some.injEq, Prod.mk.injEq]
        omega
      · have hc2 : ¬ ((l :: rest).length ≤ bound) := by
          simp only [List.length_cons]; omega
        rw [if_neg hc, if_neg hc2]

/-- When every fold succeeds, the loop appends exactly one
(commitment, hint) pair per layer. -/
theorem friLayerLoop_hints (ext : Ext) (layers : List FriLayerProof) :
    ∀ (bound domain : Nat) (ch : Channel) (hints : List (Hash × DrawHints))
      (alphas : List QM31), layers.length ≤ bound →
      (friLayerLoop ext layers bound domain ch hints alphas).2.1.length
        = hints.length + layers.length := by
  induction layers with
  | nil => intro bound domain ch hints alphas _; simp [friLayerLoop]
  | cons l rest ih =>
    intro bound domain ch hints alphas hlen
    simp only [List.length_cons] at hlen
    have hb : ¬ bound < FOLD_STEP := by simp only [FOLD_STEP]; omega
    have hfold : lineFold bound FOLD_STEP = some (bound - FOLD_STEP) := by
      simp [lineFold, hb]
    simp only [friLayerLoop, hfold]
    rw [ih]
    · simp; omega
    · simp only [FOLD_STEP]; omega

/-- The loop only ever appends to the channel history. -/
theorem friLayerLoop_channel (ext : Ext) (layers : List FriLayerProof) :
    ∀ (bound domain : Nat) (ch : Channel) (hints : List (Hash × DrawHints))
      (alphas : List QM31),
      ∃ rest, ((friLayerLoop ext layers bound domain ch hints alphas).1).hist
        = ch.hist ++ rest := by
  induction layers with
  | nil => intro bound domain ch hints alphas; exact ⟨[], by simp [friLayerLoop]⟩
  | cons l rest ih =>
    intro bound domain ch hints alphas
    by_cases hb : bound < FOLD_STEP
    · refine ⟨[Entry.digestE l.commitment, Entry.drawE], ?_⟩
      simp [friLayerLoop, lineFold, hb, Channel.mix_digest, Channel.advance]
    · have hfold : lineFold bound FOLD_STEP = some (bound - FOLD_STEP) := by
        simp [lineFold, hb]
      obtain ⟨r, hr⟩ := ih (bound - FOLD_STEP) (domain + 1)
        ((ch.mix_digest l.commitment).advance)
        (hints ++ [(l.commitment, ext.draw_felt_hint (ch.mix_digest l.commitment))])
        (alphas ++ [ext.draw_felt (ch.mix_digest l.commitment)])
      refine ⟨[Entry.digestE l.commitment, Entry.drawE] ++ r, ?_⟩
      simp only [friLayerLoop, hfold]
      rw [hr]
      simp [Channel.mix_digest, Channel.advance]

/-- The channel-history extension relation composes. -/
theorem ext_trans {a b c : Channel} (h1 : ∃ r, b.hist = a.hist ++ r)
    (h2 : ∃ s, c.hist = b.hist ++ s) : ∃ t, c.hist = a.hist ++ t := by
  obtain ⟨r, hr⟩ := h1
  obtain ⟨s, hs⟩ := h2
  exact ⟨r ++ s, by rw [hs, hr, List.append_assoc]⟩

end FiatShamir

namespace FiatShamir

/-- When the asserts hold, the extraction succeeds and the recomputed
composition value matches, `generate_fs_hints` is its continuation. -/
theorem gen_eq_tail (ext : Ext) (consts : Consts) (air : Air) (proof : StarkProof)
    (ch : Channel) (tv : List (List (List QM31))) (cv : QM31)
    (hA : maskAssertsOk (air.mask_points (oodsPoint ext proof ch)) = true)
    (hS : sampled_values_to_mask ext proof.commitment_scheme_proof.sampled_values
      = some (tv, cv))
    (hMM : cv = air.eval_composition_polynomial_at_point (oodsPoint ext proof ch) tv
      (firstRandomCoeff ext proof ch)) :
    generate_fs_hints ext consts air proof ch = fsTail ext consts air proof ch tv := by
  simp [generate_fs_hints, hA, hS, hMM]

/-- No step after the OODS check can produce `OodsNotMatching`. -/
theorem fsTail_ne_oods (ext : Ext) (consts : Consts) (air : Air) (proof : StarkProof)
    (ch : Channel) (tv : List (List (List QM31))) :
    (fsTail ext consts air proof ch tv).1
      ≠ RunResult.err VerificationError.oodsNotMatching := by
  rcases hfr : friLoopResult ext consts air proof ch with ⟨chL, prs, als, opt⟩
  rcases opt with _ | bd
  · simp [fsTail, hfr]
  · simp only [fsTail, hfr]
    split
    · simp
    · split
      · simp
      · split
        · simp
        · split
          · simp
          · simp

/-- The continuation yields `InvalidNumFriLayers` exactly when the loop
fold failed or the post-loop bound misses the last-layer bound. -/
theorem fsTail_invalidNum_iff (ext : Ext) (consts : Consts) (air : Air)
    (proof : StarkProof) (ch : Channel) (tv : List (List (List QM31))) :
    (fsTail ext consts air proof ch tv).1
        = RunResult.err (VerificationError.fri FriVerificationError.invalidNumFriLayers)
      ↔ ((friLoopResult ext consts air proof ch).2.2.2 = none
        ∨ ∃ bd, (friLoopResult ext consts air proof ch).2.2.2 = some bd
            ∧ bd.1 ≠ consts.log_last_layer_degree_bound) := by
  rcases hfr : friLoopResult ext consts air proof ch with ⟨chL, prs, als, opt⟩
  rcases opt with _ | bd
  · simp [fsTail, hfr]
  · simp only [fsTail, hfr]
    by_cases hbd : bd.1 = consts.log_last_layer_degree_bound
    · rw [if_neg (by simp [hbd])]
      split
      · simp [hbd]
      · split
        · simp [hbd]
        · split
          · simp [hbd]
          · simp [hbd]
    · rw [if_pos hbd]
      simp [hbd]

/-- After a successful loop landing on the last-layer bound, the
continuation yields `LastLayerDegreeInvalid` exactly when the last
layer has too many coefficients. -/
theorem fsTail_lastLayer_iff (ext : Ext) (consts : Consts) (air : Air)
    (proof : StarkProof) (ch : Channel) (tv : List (List (List QM31))) (df : Nat)
    (hOpt : (friLoopResult ext consts air proof ch).2.2.2
      = some (consts.log_last_layer_degree_bound, df)) :
    ((fsTail ext consts air proof ch tv).1
        = RunResult.err (VerificationError.fri FriVerificationError.lastLayerDegreeInvalid)
      ↔ proof.commitment_scheme_proof.fri_proof.last_layer_poly.length
          > 2 ^ consts.log_last_layer_degree_bound) := by
  rcases hfr : friLoopResult ext consts air proof ch with ⟨chL, prs, als, opt⟩
  rw [hfr] at hOpt
  simp only at hOpt
  subst hOpt
  simp only [fsTail, hfr]
  rw [if_neg (by simp)]
  by_cases hlen : proof.commitment_scheme_proof.fri_proof.last_layer_poly.length
      > 2 ^ consts.log_last_layer_degree_bound
  · rw [if_pos hlen]
    simp [hlen]
  · rw [if_neg hlen]
    simp only [hlen, iff_false]
    split
    · simp
    · split
      · simp
      · simp

/-- With an empty last layer (which passes the degree check) and a
passing proof-of-work, the continuation panics at bundle assembly. -/
theorem fsTail_panics_empty (ext : Ext) (consts : Consts) (air : Air)
    (proof : StarkProof) (ch : Channel) (tv : List (List (List QM31))) (df : Nat)
    (hOpt : (friLoopResult ext consts air proof ch).2.2.2
      = some (consts.log_last_layer_degree_bound, df))
    (hPoly : proof.commitment_scheme_proof.fri_proof.last_layer_poly = [])
    (hPow : ext.pow_ok
        (((friLoopResult ext consts air proof ch).1).mix_felts
          proof.commitment_scheme_proof.fri_proof.last_layer_poly).hist
        proof.commitment_scheme_proof.proof_of_work.nonce
        consts.proof_of_work_bits = true) :
    (fsTail ext consts air proof ch tv).1 = RunResult.panicked := by
  rcases hfr : friLoopResult ext consts air proof ch with ⟨chL, prs, als, opt⟩
  rw [hfr] at hOpt hPow
  simp only at hOpt hPow
  subst hOpt
  simp only [fsTail, hfr]
  rw [if_neg (by simp)]
  rw [if_neg (by simp [hPoly])]
  rw [if_neg (by simp [hPow])]
  simp [hPoly]

/-- A successful continuation determines the derived fields: the
column-size list, the reported max bound, and the loop's success. -/
theorem fsTail_ok_inv (ext : Ext) (consts : Consts) (air : Air)
    (proof : StarkProof) (ch : Channel) (tv : List (List (List QM31))) (out : FSOutput)
    (h : (fsTail ext consts air proof ch tv).1 = RunResult.ok out) :
    out.fri_input.column_log_sizes
        = (List.destutter (· ≠ ·) (boundsOf consts air (oodsPoint ext proof ch))).map
            (· + consts.log_blowup_factor)
    ∧ out.fri_input.max_column_log_degree_bound = maxColumnBound ext consts air proof ch
    ∧ ∃ chL als df,
        friLoopResult ext consts air proof ch
          = (chL, out.fiat_shamir_hints.fri_commitment_and_folding_hints, als,
              some (consts.log_last_layer_degree_bound, df)) := by
  rcases hfr : friLoopResult ext consts air proof ch with ⟨chL, prs, als, opt⟩
  rcases opt with _ | bd
  · simp [fsTail, hfr] at h
  · obtain ⟨b1, b2⟩ := bd
    simp only [fsTail, hfr] at h
    split at h
    · simp at h
    · next hbd =>
      simp only [ne_eq, not_not] at hbd
      split at h
      · simp at h
      · split at h
        · simp at h
        · split at h
          · simp at h
          · rw [RunResult.ok.injEq] at h
            subst h
            refine ⟨rfl, rfl, chL, als, b2, ?_⟩
            simp [hfr, hbd]

/-- A successful full run must have passed through the continuation. -/
theorem gen_ok_exists_tail (ext : Ext) (consts : Consts) (air : Air)
    (proof : StarkProof) (ch : Channel) (out : FSOutput)
    (h : (generate_fs_hints ext consts air proof ch).1 = RunResult.ok out) :
    ∃ tv, (fsTail ext consts air proof ch tv).1 = RunResult.ok out := by
  simp only [generate_fs_hints] at h
  split at h
  · simp at h
  · split at h
    · simp at h
    · next tv cv _ =>
      split at h
      · simp at h
      · exact ⟨tv, h⟩

/-- The continuation only ever appends to the channel history. -/
theorem fsTail_channel (ext : Ext) (consts : Consts) (air : Air)
    (proof : StarkProof) (ch : Channel) (tv : List (List (List QM31))) :
    ∃ rest, ((fsTail ext consts air proof ch tv).2).hist
      = (chAfterOodsDraw proof ch).hist ++ rest := by
  have hB : ∃ w, (chBeforeFriLoop proof ch).hist = (chAfterOodsDraw proof ch).hist ++ w :=
    ext_trans (ext_trans ⟨_, rfl⟩ ⟨_, rfl⟩) ⟨_, rfl⟩
  have hLoop : ∃ w, ((friLoopResult ext consts air proof ch).1).hist
      = (chAfterOodsDraw proof ch).hist ++ w :=
    ext_trans hB
      (friLayerLoop_channel ext proof.commitment_scheme_proof.fri_proof.inner_layers
        _ _ (chBeforeFriLoop proof ch) [] [])
  rcases hfr : friLoopResult ext consts air proof ch with ⟨chL, prs, als, opt⟩
  rw [hfr] at hLoop
  rcases opt with _ | bd
  · simpa [fsTail, hfr] using hLoop
  · simp only [fsTail, hfr]
    split
    · exact hLoop
    · split
      · exact hLoop
      · split
        · exact ext_trans hLoop (ext_trans ⟨_, rfl⟩ ⟨_, rfl⟩)
        · split
          · exact ext_trans hLoop (ext_trans (ext_trans ⟨_, rfl⟩ ⟨_, rfl⟩) ⟨_, rfl⟩)
          · exact ext_trans hLoop (ext_trans (ext_trans ⟨_, rfl⟩ ⟨_, rfl⟩) ⟨_, rfl⟩)

end FiatShamir

namespace FiatShamir

/-- C1: for every proof, channel, and AIR on which the sampled-value
extraction succeeds (and the defensive mask asserts hold),
`generate_fs_hints` returns `Err(OodsNotMatching)` if and only if the
composition value recomputed by
`air.eval_composition_polynomial_at_point` at the OODS point from the
extracted trace mask values and the FIRST drawn random coefficient
differs from the composition value extracted from the proof. -/
theorem oods_not_matching_iff_recompute_differs (ext : Ext) (consts : Consts)
    (air : Air) (proof : StarkProof) (ch : Channel)
    (tv : List (List (List QM31))) (cv : QM31)
    (hA : maskAssertsOk (air.mask_points (oodsPoint ext proof ch)) = true)
    (hS : sampled_values_to_mask ext proof.commitment_scheme_proof.sampled_values
      = some (tv, cv)) :
    ((generate_fs_hints ext consts air proof ch).1
        = RunResult.err VerificationError.oodsNotMatching
      ↔ cv ≠ air.eval_composition_polynomial_at_point (oodsPoint ext proof ch) tv
          (firstRandomCoeff ext proof ch)) := by
  by_cases hMM : cv = air.eval_composition_polynomial_at_point (oodsPoint ext proof ch) tv
      (firstRandomCoeff ext proof ch)
  · rw [gen_eq_tail ext consts air proof ch tv cv hA hS hMM]
    simp [fsTail_ne_oods, hMM]
  · simp [generate_fs_hints, hA, hS, hMM]

/-- Witness for C1: a concrete proof whose extracted composition value
`0` differs from the recomputed value `99`, so the run fails with
`OodsNotMatching`. -/
theorem oods_not_matching_witness :
    ((generate_fs_hints ext0 consts0 air1 proof0 ch00).1
        = RunResult.err VerificationError.oodsNotMatching
      ↔ (0 : QM31) ≠ air1.eval_composition_polynomial_at_point
          (oodsPoint ext0 proof0 ch00) [[[1, 2, 3]]]
          (firstRandomCoeff ext0 proof0 ch00)) :=
  oods_not_matching_iff_recompute_differs ext0 consts0 air1 proof0 ch00
    [[[1, 2, 3]]] 0 (by decide) (by decide)

/-- C2 (divergence): on a proof whose sampled-value table has the wrong
shape, the extraction fails, and `generate_fs_hints` panics (the
`.unwrap()` at source line 193) instead of returning the typed error
`Err(InvalidStructure)` that its own `map_err` constructs. -/
theorem invalid_structure_shape_panics :
    sampled_values_to_mask ext0 proofEmptySV.commitment_scheme_proof.sampled_values = none
    ∧ (generate_fs_hints ext0 consts0 air0 proofEmptySV ch00).1 = RunResult.panicked
    ∧ (generate_fs_hints ext0 consts0 air0 proofEmptySV ch00).1
        ≠ RunResult.err
            (VerificationError.invalidStructure "Unexpected sampled_values structure") := by
  decide

/-- C3: the serialization of a `FiatShamirHints` bundle pushes its
fields in exactly the spec's §6 wire order, for every bundle value and
every starting builder. -/
theorem fiat_shamir_hints_push_order (h : FiatShamirHints) (b : Builder) :
    h.bitcoin_script_push b = b ++ specWireOrder h := by
  simp [FiatShamirHints.bitcoin_script_push, specWireOrder, pushHash, pushFelt,
    pushHints, pushCompositionHint, pushPoWHint, foldl_push_eq]

/-- C4: on every run that reaches the FRI phase, `generate_fs_hints`
returns `Err(InvalidNumFriLayers)` exactly when the per-layer loop's
fold failed (running bound too small to fold further) or the post-loop
running bound differs from the configured last-layer degree bound. -/
theorem invalid_num_fri_layers_iff (ext : Ext) (consts : Consts) (air : Air)
    (proof : StarkProof) (ch : Channel) (tv : List (List (List QM31))) (cv : QM31)
    (hA : maskAssertsOk (air.mask_points (oodsPoint ext proof ch)) = true)
    (hS : sampled_values_to_mask ext proof.commitment_scheme_proof.sampled_values
      = some (tv, cv))
    (hMM : cv = air.eval_composition_polynomial_at_point (oodsPoint ext proof ch) tv
      (firstRandomCoeff ext proof ch)) :
    ((generate_fs_hints ext consts air proof ch).1
        = RunResult.err (VerificationError.fri FriVerificationError.invalidNumFriLayers)
      ↔ ((friLoopResult ext consts air proof ch).2.2.2 = none
        ∨ ∃ bd, (friLoopResult ext consts air proof ch).2.2.2 = some bd
            ∧ bd.1 ≠ consts.log_last_layer_degree_bound)) := by
  rw [gen_eq_tail ext consts air proof ch tv cv hA hS hMM]
  exact fsTail_invalidNum_iff ext consts air proof ch tv

/-- Witness for C4: a proof with three inner layers where one suffices;
the in-loop fold fails and the run rejects with `InvalidNumFriLayers`. -/
theorem invalid_num_fri_layers_witness :
    ((generate_fs_hints ext0 consts0 air0 proofLayers ch00).1
        = RunResult.err (VerificationError.fri FriVerificationError.invalidNumFriLayers)
      ↔ ((friLoopResult ext0 consts0 air0 proofLayers ch00).2.2.2 = none
        ∨ ∃ bd, (friLoopResult ext0 consts0 air0 proofLayers ch00).2.2.2 = some bd
            ∧ bd.1 ≠ consts0.log_last_layer_degree_bound)) :=
  invalid_num_fri_layers_iff ext0 consts0 air0 proofLayers ch00
    [[[1, 2, 3]]] 0 (by decide) (by decide) (by decide)

/-- C5: on every run that passes all earlier checks (extraction, OODS
check, FRI layer folding landing exactly on the configured last-layer
bound), the last-layer degree check passes when the coefficient count
is at most `2 ^ log_last_layer_degree_bound` and the run returns
`Err(LastLayerDegreeInvalid)` exactly when the count exceeds it. -/
theorem last_layer_degree_check_iff (ext : Ext) (consts : Consts) (air : Air)
    (proof : StarkProof) (ch : Channel) (tv : List (List (List QM31))) (cv : QM31)
    (df : Nat)
    (hA : maskAssertsOk (air.mask_points (oodsPoint ext proof ch)) = true)
    (hS : sampled_values_to_mask ext proof.commitment_scheme_proof.sampled_values
      = some (tv, cv))
    (hMM : cv = air.eval_composition_polynomial_at_point (oodsPoint ext proof ch) tv
      (firstRandomCoeff ext proof ch))
    (hOpt : (friLoopResult ext consts air proof ch).2.2.2
      = some (consts.log_last_layer_degree_bound, df)) :
    ((generate_fs_hints ext consts air proof ch).1
        = RunResult.err (VerificationError.fri FriVerificationError.lastLayerDegreeInvalid)
      ↔ proof.commitment_scheme_proof.fri_proof.last_layer_poly.length
          > 2 ^ consts.log_last_layer_degree_bound) := by
  rw [gen_eq_tail ext consts air proof ch tv cv hA hS hMM]
  exact fsTail_lastLayer_iff ext consts air proof ch tv df hOpt

/-- Witness for C5: a proof with a two-coefficient last layer against
bound `2 ^ 0 = 1`; the run rejects with `LastLayerDegreeInvalid`. -/
theorem last_layer_degree_check_witness :
    ((generate_fs_hints ext0 consts0 air0 proofLL2 ch00).1
        = RunResult.err (VerificationError.fri FriVerificationError.lastLayerDegreeInvalid)
      ↔ proofLL2.commitment_scheme_proof.fri_proof.last_layer_poly.length
          > 2 ^ consts0.log_last_layer_degree_bound) :=
  last_layer_degree_check_iff ext0 consts0 air0 proofLL2 ch00
    [[[1, 2, 3]]] 0 3 (by decide) (by decide) (by decide) (by decide)

end FiatShamir

namespace FiatShamir

/-- C6: on every successful run, `FriInput.column_log_sizes` equals the
per-column degree bounds sorted descending, deduplicated, with the
blowup factor added back, and is strictly decreasing with no duplicate
entries. -/
theorem column_log_sizes_strictly_decreasing (ext : Ext) (consts : Consts)
    (air : Air) (proof : StarkProof) (ch : Channel) (out : FSOutput)
    (h : (generate_fs_hints ext consts air proof ch).1 = RunResult.ok out) :
    out.fri_input.column_log_sizes
        = (List.destutter (· ≠ ·) (boundsOf consts air (oodsPoint ext proof ch))).map
            (· + consts.log_blowup_factor)
    ∧ out.fri_input.column_log_sizes.Pairwise (· > ·)
    ∧ out.fri_input.column_log_sizes.Nodup := by
  obtain ⟨tv, htail⟩ := gen_ok_exists_tail ext consts air proof ch out h
  obtain ⟨hcol, _, _⟩ := fsTail_ok_inv ext consts air proof ch tv out htail
  have hgt : out.fri_input.column_log_sizes.Pairwise (· > ·) := by
    rw [hcol]; exact columnLogSizes_pairwise_gt consts air (oodsPoint ext proof ch)
  exact ⟨hcol, hgt, hgt.imp (fun hab => ne_of_gt hab)⟩

/-- Witness for C6: the accepted run on `proof0`, whose column-size
list is `[3]`. -/
theorem column_log_sizes_witness :
    out0.fri_input.column_log_sizes
        = (List.destutter (· ≠ ·) (boundsOf consts0 air0 (oodsPoint ext0 proof0 ch00))).map
            (· + consts0.log_blowup_factor)
    ∧ out0.fri_input.column_log_sizes.Pairwise (· > ·)
    ∧ out0.fri_input.column_log_sizes.Nodup :=
  column_log_sizes_strictly_decreasing ext0 consts0 air0 proof0 ch00 out0 (by decide)

/-- C7 (counterexample): the accepted run on `proof0` has exactly one
(commitment, fold-hint) pair, while the claimed formula
`(max_column_log_degree_bound - log_last_layer_degree_bound) / fold_step`
evaluates to two. -/
theorem layer_count_formula_counterexample :
    (generate_fs_hints ext0 consts0 air0 proof0 ch00).1 = RunResult.ok out0
    ∧ out0.fiat_shamir_hints.fri_commitment_and_folding_hints.length = 1
    ∧ out0.fri_input.max_column_log_degree_bound = 2
    ∧ consts0.log_last_layer_degree_bound = 0
    ∧ (out0.fri_input.max_column_log_degree_bound
        - consts0.log_last_layer_degree_bound) / FOLD_STEP = 2
    ∧ out0.fiat_shamir_hints.fri_commitment_and_folding_hints.length
        ≠ (out0.fri_input.max_column_log_degree_bound
            - consts0.log_last_layer_degree_bound) / FOLD_STEP := by
  decide

/-- On every successful run, the number of (commitment, fold-hint)
pairs equals the line-folded max bound minus the last-layer bound. -/
theorem ok_layer_count_eq (ext : Ext) (consts : Consts) (air : Air)
    (proof : StarkProof) (ch : Channel) (out : FSOutput)
    (h : (generate_fs_hints ext consts air proof ch).1 = RunResult.ok out) :
    out.fiat_shamir_hints.fri_commitment_and_folding_hints.length
      = (out.fri_input.max_column_log_degree_bound - CIRCLE_TO_LINE_FOLD_STEP
          - consts.log_last_layer_degree_bound) / FOLD_STEP := by
  obtain ⟨tv, htail⟩ := gen_ok_exists_tail ext consts air proof ch out h
  obtain ⟨_, hmax, chL, als, df, hfr⟩ := fsTail_ok_inv ext consts air proof ch tv out htail
  rw [friLoopResult] at hfr
  have h1 := congrArg (fun t => t.2.2.2) hfr
  have h2 := congrArg (fun t => t.2.1) hfr
  simp only at h1 h2
  rw [friLayerLoop_opt] at h1
  split at h1
  · next hlen =>
    simp only [Option.some.injEq, Prod.mk.injEq] at h1
    have h3 := friLayerLoop_hints ext proof.commitment_scheme_proof.fri_proof.inner_layers
      (maxColumnBound ext consts air proof ch - CIRCLE_TO_LINE_FOLD_STEP)
      (maxColumnBound ext consts air proof ch - CIRCLE_TO_LINE_FOLD_STEP
        + consts.log_blowup_factor)
      (chBeforeFriLoop proof ch) [] [] hlen
    rw [h2] at h3
    simp only [List.length_nil, Nat.zero_add] at h3
    rw [hmax, h3]
    simp only [FOLD_STEP, Nat.div_one]
    omega
  · simp at h1

/-- C7 (amended): on every run reaching the FRI phase with a feasible
last-layer bound, (a) a successful run carries exactly
`(max_column_log_degree_bound - CIRCLE_TO_LINE_FOLD_STEP -
log_last_layer_degree_bound) / FOLD_STEP` (commitment, fold-hint)
pairs, with `max_column_log_degree_bound` the value reported in the
returned `FriInput` — the circle-to-line fold consumes one extra
halving before the inner layers — and (b) the run yields
`Err(InvalidNumFriLayers)` exactly when the proof carries any other
number of FRI inner-layer proofs. -/
theorem layer_count_amended (ext : Ext) (consts : Consts) (air : Air)
    (proof : StarkProof) (ch : Channel) (tv : List (List (List QM31))) (cv : QM31)
    (hA : maskAssertsOk (air.mask_points (oodsPoint ext proof ch)) = true)
    (hS : sampled_values_to_mask ext proof.commitment_scheme_proof.sampled_values
      = some (tv, cv))
    (hMM : cv = air.eval_composition_polynomial_at_point (oodsPoint ext proof ch) tv
      (firstRandomCoeff ext proof ch))
    (hLast : consts.log_last_layer_degree_bound
      ≤ maxColumnBound ext consts air proof ch - CIRCLE_TO_LINE_FOLD_STEP) :
    (∀ out, (generate_fs_hints ext consts air proof ch).1 = RunResult.ok out →
      out.fiat_shamir_hints.fri_commitment_and_folding_hints.length
        = (out.fri_input.max_column_log_degree_bound - CIRCLE_TO_LINE_FOLD_STEP
            - consts.log_last_layer_degree_bound) / FOLD_STEP)
    ∧ ((generate_fs_hints ext consts air proof ch).1
          = RunResult.err (VerificationError.fri FriVerificationError.invalidNumFriLayers)
        ↔ proof.commitment_scheme_proof.fri_proof.inner_layers.length
            ≠ (maxColumnBound ext consts air proof ch - CIRCLE_TO_LINE_FOLD_STEP
                - consts.log_last_layer_degree_bound) / FOLD_STEP) := by
  refine ⟨fun out hout => ok_layer_count_eq ext consts air proof ch out hout, ?_⟩
  rw [gen_eq_tail ext consts air proof ch tv cv hA hS hMM]
  rw [fsTail_invalidNum_iff ext consts air proof ch tv]
  have hopt : (friLoopResult ext consts air proof ch).2.2.2
      = if proof.commitment_scheme_proof.fri_proof.inner_layers.length
            ≤ maxColumnBound ext consts air proof ch - CIRCLE_TO_LINE_FOLD_STEP
        then some (maxColumnBound ext consts air proof ch - CIRCLE_TO_LINE_FOLD_STEP
            - proof.commitment_scheme_proof.fri_proof.inner_layers.length,
          maxColumnBound ext consts air proof ch - CIRCLE_TO_LINE_FOLD_STEP
            + consts.log_blowup_factor
            + proof.commitment_scheme_proof.fri_proof.inner_layers.length)
        else none := by
    rw [friLoopResult]
    exact friLayerLoop_opt ext proof.commitment_scheme_proof.fri_proof.inner_layers
      _ _ (chBeforeFriLoop proof ch) [] []
  rw [hopt]
  simp only [FOLD_STEP, Nat.div_one]
  by_cases hle : proof.commitment_scheme_proof.fri_proof.inner_layers.length
      ≤ maxColumnBound ext consts air proof ch - CIRCLE_TO_LINE_FOLD_STEP
  · rw [if_pos hle]
    simp only [reduceCtorEq, Option.some.injEq, false_or]
    constructor
    · rintro ⟨bd, hbd, hne⟩
      rw [← hbd] at hne
      simp only at hne
      omega
    · intro hne
      refine ⟨_, rfl, ?_⟩
      simp only
      omega
  · rw [if_neg hle]
    simp only [eq_self_iff_true, true_or, true_iff]
    omega

/-- Witness for the amended C7: on `proof0`, part (a) with one pair and
`(2 - 1 - 0) / 1 = 1`, and part (b)'s iff with a matching layer count. -/
theorem layer_count_amended_witness :
    (∀ out, (generate_fs_hints ext0 consts0 air0 proof0 ch00).1 = RunResult.ok out →
      out.fiat_shamir_hints.fri_commitment_and_folding_hints.length
        = (out.fri_input.max_column_log_degree_bound - CIRCLE_TO_LINE_FOLD_STEP
            - consts0.log_last_layer_degree_bound) / FOLD_STEP)
    ∧ ((generate_fs_hints ext0 consts0 air0 proof0 ch00).1
          = RunResult.err (VerificationError.fri FriVerificationError.invalidNumFriLayers)
        ↔ proof0.commitment_scheme_proof.fri_proof.inner_layers.length
            ≠ (maxColumnBound ext0 consts0 air0 proof0 ch00 - CIRCLE_TO_LINE_FOLD_STEP
                - consts0.log_last_layer_degree_bound) / FOLD_STEP) :=
  layer_count_amended ext0 consts0 air0 proof0 ch00 [[[1, 2, 3]]] 0
    (by decide) (by decide) (by decide) (by decide)

/-- C8: `generate_fs_hints` is deterministic — equal proofs, equal
initial channel states, and the same AIR (and the same external
collaborators and constants) produce equal results. -/
theorem generate_fs_hints_deterministic (ext : Ext) (consts : Consts)
    (a1 a2 : Air) (p1 p2 : StarkProof) (c1 c2 : Channel)
    (hp : p1 = p2) (hc : c1 = c2) (ha : a1 = a2) :
    generate_fs_hints ext consts a1 p1 c1 = generate_fs_hints ext consts a2 p2 c2 := by
  subst hp; subst hc; subst ha; rfl

/-- Witness for C8: two invocations on the same concrete inputs. -/
theorem generate_fs_hints_deterministic_witness :
    generate_fs_hints ext0 consts0 air0 proof0 ch00
      = generate_fs_hints ext0 consts0 air0 proof0 ch00 :=
  generate_fs_hints_deterministic ext0 consts0 air0 air0 proof0 proof0 ch00 ch00
    rfl rfl rfl

/-- C9: every error return happens only after the trace commitment, a
challenge draw, and the composition commitment have been absorbed: the
final channel extends the initial history by at least those three
events and in particular differs from the initial channel. -/
theorem error_implies_channel_mutated (ext : Ext) (consts : Consts) (air : Air)
    (proof : StarkProof) (ch : Channel) (e : VerificationError)
    (h : (generate_fs_hints ext consts air proof ch).1 = RunResult.err e) :
    (generate_fs_hints ext consts air proof ch).2 ≠ ch
    ∧ ∃ rest, ((generate_fs_hints ext consts air proof ch).2).hist
        = ch.hist ++ Entry.digestE proof.commitments.1 :: Entry.drawE
            :: Entry.digestE proof.commitments.2 :: rest := by
  have h4 : (chAfterOodsDraw proof ch).hist
      = ch.hist ++ [Entry.digestE proof.commitments.1, Entry.drawE,
          Entry.digestE proof.commitments.2, Entry.drawE] := by
    simp [chAfterOodsDraw, chAfterCompCommit, chAfterTraceCommit,
      Channel.mix_digest, Channel.advance]
  have hmut : ∃ rest, ((generate_fs_hints ext consts air proof ch).2).hist
      = ch.hist ++ Entry.digestE proof.commitments.1 :: Entry.drawE
          :: Entry.digestE proof.commitments.2 :: rest := by
    simp only [generate_fs_hints]
    split
    · exact ⟨[Entry.drawE], by rw [h4]⟩
    · split
      · exact ⟨[Entry.drawE], by rw [h4]⟩
      · split
        · exact ⟨[Entry.drawE], by rw [h4]⟩
        · obtain ⟨r, hr⟩ := fsTail_channel ext consts air proof ch _
          exact ⟨Entry.drawE :: r, by rw [hr, h4]; simp⟩
  refine ⟨?_, hmut⟩
  obtain ⟨rest, hrest⟩ := hmut
  intro hEq
  rw [hEq] at hrest
  simp at hrest

/-- Witness for C9: the `OodsNotMatching` failure on `proof0` under
`air1` leaves both commitments in the channel history. -/
theorem error_channel_mutated_witness :
    (generate_fs_hints ext0 consts0 air1 proof0 ch00).2 ≠ ch00
    ∧ ∃ rest, ((generate_fs_hints ext0 consts0 air1 proof0 ch00).2).hist
        = ch00.hist ++ Entry.digestE proof0.commitments.1 :: Entry.drawE
            :: Entry.digestE proof0.commitments.2 :: rest :=
  error_implies_channel_mutated ext0 consts0 air1 proof0 ch00
    VerificationError.oodsNotMatching (by decide)

/-- C10: a proof whose last-layer polynomial is empty passes the degree
check (`0 ≤ 2 ^ log_last_layer_degree_bound`) and every other check,
yet `generate_fs_hints` panics at bundle assembly on the unguarded
`last_layer_poly.to_vec()[0]` index instead of returning `Ok` or a
typed error. -/
theorem empty_last_layer_panics (ext : Ext) (consts : Consts) (air : Air)
    (proof : StarkProof) (ch : Channel) (tv : List (List (List QM31))) (cv : QM31)
    (df : Nat)
    (hA : maskAssertsOk (air.mask_points (oodsPoint ext proof ch)) = true)
    (hS : sampled_values_to_mask ext proof.commitment_scheme_proof.sampled_values
      = some (tv, cv))
    (hMM : cv = air.eval_composition_polynomial_at_point (oodsPoint ext proof ch) tv
      (firstRandomCoeff ext proof ch))
    (hOpt : (friLoopResult ext consts air proof ch).2.2.2
      = some (consts.log_last_layer_degree_bound, df))
    (hPoly : proof.commitment_scheme_proof.fri_proof.last_layer_poly = [])
    (hPow : ext.pow_ok
        (((friLoopResult ext consts air proof ch).1).mix_felts
          proof.commitment_scheme_proof.fri_proof.last_layer_poly).hist
        proof.commitment_scheme_proof.proof_of_work.nonce
        consts.proof_of_work_bits = true) :
    (generate_fs_hints ext consts air proof ch).1 = RunResult.panicked := by
  rw [gen_eq_tail ext consts air proof ch tv cv hA hS hMM]
  exact fsTail_panics_empty ext consts air proof ch tv df hOpt hPoly hPow

/-- Witness for C10: `proof0` with an empty last layer reaches assembly
and panics. -/
theorem empty_last_layer_panics_witness :
    (generate_fs_hints ext0 consts0 air0 proofLL0 ch00).1 = RunResult.panicked :=
  empty_last_layer_panics ext0 consts0 air0 proofLL0 ch00 [[[1, 2, 3]]] 0 3
    (by decide) (by decide) (by decide) (by decide) (by decide) (by decide)

end FiatShamir
